import Mathlib

/-!
Shallow embedding of `DifferenceStatisticsLogic.run` from
`DifferenceStatistics/DifferenceStatistics.py` (SlicerSALT DifferenceStatistics
module), together with theorems settling the specification claims.

The Python routine is orchestration code: it validates two filesystem paths,
reads a CSV table, iterates over rows pairing two mesh paths, calls external
Slicer operations (model loading, model-to-model distance, node saving) per
row inside a try/except that aborts the whole batch on any failure, writes a
manifest CSV, and configures three path fields of the MFSDA statistics widget.

The embedding makes the external world explicit:
* `FS` records the facts `run` queries about the filesystem: whether the input
  CSV exists, whether the output path exists and is a directory, and the table
  `pd.read_csv` would produce from the input CSV.
* `SlicerEnv` is an oracle for the external Slicer calls: whether loading a
  given model path succeeds with a usable (truthy) model, whether the distance
  computation and point-data rewrite complete for a given row, and whether
  saving a node to a given path succeeds.  Any failure of these raises a
  Python exception inside the try block (a falsy model triggers the explicit
  `raise` in the source), so one Bool per call captures the control flow.
* All observable writes and GUI actions are recorded as an `Effect` trace;
  `run` returns `Except PyError (List Effect)`, where `.error` models an
  uncaught Python exception propagating to the caller.
-/

namespace DiffStats

/-- Index of the last occurrence of `c` in `l`, or `-1` when absent: Python's
`str.rfind` over the character list of a string. -/
def rfindIdx (c : Char) (l : List Char) : Int :=
  match l.reverse.findIdx? (fun x => x = c) with
  | none => -1
  | some j => (l.length : Int) - 1 - (j : Int)

/-- The `while filenameIndex < dotIndex` scan of CPython's `splitext`: true iff
some position `j` with `lo ≤ j < hi` holds a character other than `'.'`. -/
def hasNonDotBetween (l : List Char) (lo hi : Int) : Bool :=
  (List.range l.length).any
    (fun j => decide (lo ≤ (j : Int)) && decide ((j : Int) < hi) && (l.getD j ' ' != '.'))

/-- `os.path.splitext` (POSIX flavour): split off the extension at the last
dot, unless every character between the last separator and that dot is itself
a dot (so dotfiles such as `.bashrc` keep their name intact). -/
def splitext (p : String) : String × String :=
  let l := p.toList
  let sepIndex := rfindIdx '/' l
  let dotIndex := rfindIdx '.' l
  if dotIndex > sepIndex && hasNonDotBetween l (sepIndex + 1) dotIndex then
    (String.mk (l.take dotIndex.toNat), String.mk (l.drop dotIndex.toNat))
  else
    (p, "")

/-- The tail component of `os.path.split`: the substring after the last `'/'`
(the whole string when no `'/'` occurs).  The source discards the head. -/
def pathSplitTail (p : String) : String :=
  String.mk ((p.toList.reverse.takeWhile (fun c => c != '/')).reverse)

/-- `tp_name` as computed in the source: `os.path.split` the path, then
`os.path.splitext` the tail and keep the root. -/
def stem (p : String) : String :=
  (splitext (pathSplitTail p)).1

/-- `pathlib`'s `/` operator for a relative right operand. -/
def pathJoin (d s : String) : String :=
  d ++ "/" ++ s

/-- A parsed CSV table (the result of `pd.read_csv`): a header of column names
and data rows of cell values, column-aligned with the header. -/
structure DataFrame where
  header : List String
  rows : List (List String)
deriving DecidableEq, Repr

/-- First index of column `name` in a header, `none` when absent. -/
def colIndex (name : String) : List String → Option Nat
  | [] => none
  | h :: t => if h = name then some 0 else (colIndex name t).map (· + 1)

/-- `df[name]`: the column as a list of cell values, or `none` when the label
is missing (pandas raises `KeyError`). -/
def DataFrame.getColumn (df : DataFrame) (name : String) : Option (List String) :=
  (colIndex name df.header).map (fun i => df.rows.map (fun r => r.getD i ""))

/-- `df.drop(labels, axis=1)`: remove every column whose name is in `labels`,
keeping the remaining columns in their original order. -/
def DataFrame.dropCols (df : DataFrame) (labels : List String) : DataFrame :=
  { header := df.header.filter (fun h => !(labels.contains h)),
    rows := df.rows.map
      (fun r => ((df.header.zip r).filter (fun p => !(labels.contains p.1))).map Prod.snd) }

/-- `df.insert(0, name, vals)`: prepend a column.  At the single call site the
length of `vals` equals the row count, so the `zip` is exact. -/
def DataFrame.insertCol0 (df : DataFrame) (name : String) (vals : List String) : DataFrame :=
  { header := name :: df.header,
    rows := (vals.zip df.rows).map (fun p => p.1 :: p.2) }

/-- The facts `run` queries about the filesystem, fixed for the duration of
the call: existence of the input CSV, existence / directory-ness of the output
path, and the table parsed from the input CSV. -/
structure FS where
  inputExists : Bool
  outputExists : Bool
  outputIsDir : Bool
  table : DataFrame
deriving DecidableEq, Repr

/-- Oracle for the external Slicer operations invoked per row.  Each field
answers whether the corresponding call completes without raising and, for
`loadModelOk`, with a truthy model node (a falsy node makes the source raise
explicitly, landing in the same except branch). -/
structure SlicerEnv where
  loadModelOk : String → Bool
  distanceOk : Nat → Bool
  saveOk : String → Bool

/-- A Python exception value as far as the claims distinguish them.
`osError` is what pandas raises from `to_csv` when the target directory does
not exist. -/
inductive PyError where
  | valueError (msg : String)
  | keyError (key : String)
  | osError (msg : String)
deriving DecidableEq, Repr

/-- Observable actions of `run`: files written, the per-row error print, and
the GUI calls configuring the statistics module. -/
inductive Effect where
  | savedModel (path : String)
  | printedError (index : Nat)
  | wroteManifest (path : String) (df : DataFrame)
  | selectedModule (name : String)
  | setPShape (path : String)
  | setOutputDir (path : String)
  | setCsv (path : String)
deriving DecidableEq, Repr

/-- `out_name` for a row: `tp2` stem, a dash, `tp1` stem. -/
def outName (tp1 tp2 : String) : String :=
  stem tp2 ++ "-" ++ stem tp1

/-- `output / f"{out_name}.vtk"`: full path of the difference mesh of a row. -/
def outPath (output tp1 tp2 : String) : String :=
  pathJoin output (outName tp1 tp2 ++ ".vtk")

/-- The `for index, (tp1, tp2) in enumerate(zip(...))` loop body with its
try/except.  Returns the effects emitted, the accumulated `names` list, and
whether the loop ran to completion (`false` means the except branch returned
from `run`).  A row first loads both models and runs the distance computation;
if any of those raises the row fails before saving, otherwise the save is
attempted at the derived output path. -/
def processRows (env : SlicerEnv) (output : String) :
    Nat → List (String × String) → List Effect × List String × Bool
  | _, [] => ([], [], true)
  | index, (tp1, tp2) :: rest =>
    if env.loadModelOk tp1 && env.loadModelOk tp2 && env.distanceOk index then
      let fullpath := outPath output tp1 tp2
      if env.saveOk fullpath then
        let r := processRows env output (index + 1) rest
        (Effect.savedModel fullpath :: r.1, fullpath :: r.2.1, r.2.2)
      else
        ([Effect.printedError index], [], false)
    else
      ([Effect.printedError index], [], false)

/-- `DifferenceStatisticsLogic.run(inputCSV, template, output)`.  `inputCSV`
itself is consulted only through `fs` (its existence and parsed content);
`template` and `output` are the path strings of the other two arguments.
An `Except.error` result models an uncaught Python exception propagating to
the caller.  The post-loop `covs.to_csv` call writes into the output
directory and raises an uncaught `OSError` when that directory does not
exist (validation only rejects an output path that exists and is not a
directory, so a nonexistent output path reaches this point). -/
def run (fs : FS) (env : SlicerEnv) (inputCSV template output : String) :
    Except PyError (List Effect) :=
  if !fs.inputExists then
    Except.error (PyError.valueError "Input CSV is not valid.")
  else if fs.outputExists && !fs.outputIsDir then
    Except.error (PyError.valueError "Output directory is not valid.")
  else
    let df := fs.table
    match df.getColumn "Timepoint 1" with
    | none => Except.error (PyError.keyError "Timepoint 1")
    | some tp1_subjects =>
      match df.getColumn "Timepoint 2" with
      | none => Except.error (PyError.keyError "Timepoint 2")
      | some tp2_subjects =>
        let covs := df.dropCols ["Timepoint 1", "Timepoint 2"]
        let r := processRows env output 0 (tp1_subjects.zip tp2_subjects)
        if !r.2.2 then
          Except.ok r.1
        else if !fs.outputExists then
          Except.error (PyError.osError "Cannot save file into a non-existent directory")
        else
          let manifest := covs.insertCol0 "VTK File" r.2.1
          let out_csv_fullpath := pathJoin output "mfsdaInputFiles.csv"
          Except.ok (r.1 ++
            [Effect.wroteManifest out_csv_fullpath manifest,
             Effect.selectedModule "mfsda",
             Effect.selectedModule "differencestatistics",
             Effect.setPShape template,
             Effect.setOutputDir output,
             Effect.setCsv out_csv_fullpath])

/-- A row of the loop succeeds: both model loads, the distance computation and
the save of the derived output file all complete without raising. -/
def rowOk (env : SlicerEnv) (output : String) (index : Nat) (tp1 tp2 : String) : Bool :=
  env.loadModelOk tp1 && env.loadModelOk tp2 && env.distanceOk index &&
    env.saveOk (outPath output tp1 tp2)

/-- Every row of the batch succeeds, indices counted from `i`. -/
def allRowsOk (env : SlicerEnv) (output : String) : Nat → List (String × String) → Bool
  | _, [] => true
  | i, (t1, t2) :: rest => rowOk env output i t1 t2 && allRowsOk env output (i + 1) rest

/-- Number of leading rows that succeed (the rows the loop actually completes
before the first failure, if any). -/
def okPrefixLen (env : SlicerEnv) (output : String) : Nat → List (String × String) → Nat
  | _, [] => 0
  | i, (t1, t2) :: rest =>
    if rowOk env output i t1 t2 then okPrefixLen env output (i + 1) rest + 1 else 0

/-- Effect classifier: a difference-mesh file save. -/
def isSavedEffect : Effect → Bool
  | .savedModel _ => true
  | _ => false

/-- Effect classifier: effects emitted by the per-row loop (file saves and the
error print), as opposed to the post-loop manifest/GUI effects. -/
def isRowEffect : Effect → Bool
  | .savedModel _ => true
  | .printedError _ => true
  | _ => false

/-- Effect classifier: a configuration write to one of the three path fields
of the MFSDA statistics widget. -/
def isSetEffect : Effect → Bool
  | .setPShape _ => true
  | .setOutputDir _ => true
  | .setCsv _ => true
  | _ => false

/-- The result is an uncaught `ValueError`. -/
def isValueError : Except PyError (List Effect) → Bool
  | .error (.valueError _) => true
  | _ => false

/-- The filesystem path an effect writes to, when it writes a file at all. -/
def writesPath : Effect → Option String
  | .savedModel p => some p
  | .wroteManifest p _ => some p
  | _ => none

/-- Environment in which every external Slicer call succeeds. -/
def envAllOk : SlicerEnv :=
  ⟨fun _ => true, fun _ => true, fun _ => true⟩

/-- Environment in which loading the second subject's first timepoint fails. -/
def envFailRow1 : SlicerEnv :=
  ⟨fun p => p != "/data/s2_tp1.vtk", fun _ => true, fun _ => true⟩

/-- Column `Timepoint 1` of `tableSample`. -/
def tp1Sample : List String := ["/data/s1_tp1.vtk", "/data/s2_tp1.vtk"]

/-- Column `Timepoint 2` of `tableSample`. -/
def tp2Sample : List String := ["/data/s1_tp2.vtk", "/data/s2_tp2.vtk"]

/-- A two-row input table with one covariate column. -/
def tableSample : DataFrame :=
  ⟨["Timepoint 1", "Timepoint 2", "Age"],
   [["/data/s1_tp1.vtk", "/data/s1_tp2.vtk", "31"],
    ["/data/s2_tp1.vtk", "/data/s2_tp2.vtk", "45"]]⟩

/-- A well-formed filesystem for `tableSample`. -/
def fsSample : FS := ⟨true, true, true, tableSample⟩

/-- The same header as `tableSample` but with zero data rows. -/
def tableNoRows : DataFrame := ⟨["Timepoint 1", "Timepoint 2", "Age"], []⟩

/-- A well-formed filesystem for `tableNoRows`. -/
def fsNoRows : FS := ⟨true, true, true, tableNoRows⟩

/-- Input CSV exists but the output path does not exist at all (and hence is
not a directory). -/
def fsNoOutput : FS := ⟨true, false, false, tableNoRows⟩

/-- The input CSV does not exist. -/
def fsNoInput : FS := ⟨false, true, true, tableSample⟩

/-- A table lacking the `Timepoint 2` column. -/
def tableMissingTp2 : DataFrame :=
  ⟨["Timepoint 1", "Age"], [["/data/s1_tp1.vtk", "31"]]⟩

/-- A well-formed filesystem for `tableMissingTp2`. -/
def fsMissingTp2 : FS := ⟨true, true, true, tableMissingTp2⟩

/-- A table lacking the `Timepoint 1` column. -/
def tableMissingTp1 : DataFrame :=
  ⟨["Timepoint 2", "Age"], [["/data/s1_tp2.vtk", "31"]]⟩

/-- Input CSV exists, the output path does not exist at all, and the table
lacks the `Timepoint 1` column. -/
def fsNoOutputMissingTp1 : FS := ⟨true, false, false, tableMissingTp1⟩

/-! ### Helper lemmas about the row loop -/

theorem processRows_cons (env : SlicerEnv) (output : String) (i : Nat) (t1 t2 : String)
    (rest : List (String × String)) :
    processRows env output i ((t1, t2) :: rest) =
      if rowOk env output i t1 t2 then
        (Effect.savedModel (outPath output t1 t2) :: (processRows env output (i + 1) rest).1,
         outPath output t1 t2 :: (processRows env output (i + 1) rest).2.1,
         (processRows env output (i + 1) rest).2.2)
      else
        ([Effect.printedError i], [], false) := by
  cases hl : (env.loadModelOk t1 && env.loadModelOk t2 && env.distanceOk i) with
  | false =>
    have : rowOk env output i t1 t2 = false := by
      simp only [rowOk]
      simp only [Bool.and_eq_true, Bool.and_eq_false_iff] at hl ⊢
      tauto
    simp [processRows, hl, this]
  | true =>
    cases hs : env.saveOk (outPath output t1 t2) with
    | false =>
      have : rowOk env output i t1 t2 = false := by simp [rowOk, hs]
      simp [processRows, hl, hs, this]
    | true =>
      have : rowOk env output i t1 t2 = true := by
        simp only [rowOk, Bool.and_eq_true] at hl ⊢
        exact ⟨hl, hs⟩
      simp [processRows, hl, hs, this]

theorem processRows_all_ok (env : SlicerEnv) (output : String) :
    ∀ (i : Nat) (pairs : List (String × String)),
      allRowsOk env output i pairs = true →
      processRows env output i pairs =
        (pairs.map (fun p => Effect.savedModel (outPath output p.1 p.2)),
         pairs.map (fun p => outPath output p.1 p.2),
         true)
  | _, [], _ => rfl
  | i, (t1, t2) :: rest, h => by
    simp only [allRowsOk, Bool.and_eq_true] at h
    rw [processRows_cons, if_pos h.1, processRows_all_ok env output (i + 1) rest h.2]
    simp

theorem processRows_fail (env : SlicerEnv) (output : String) :
    ∀ (i : Nat) (pairs : List (String × String)),
      allRowsOk env output i pairs = false →
      processRows env output i pairs =
        ((pairs.take (okPrefixLen env output i pairs)).map
            (fun p => Effect.savedModel (outPath output p.1 p.2)) ++
          [Effect.printedError (i + okPrefixLen env output i pairs)],
         (pairs.take (okPrefixLen env output i pairs)).map
            (fun p => outPath output p.1 p.2),
         false)
  | _, [], h => by simp [allRowsOk] at h
  | i, (t1, t2) :: rest, h => by
    simp only [allRowsOk, Bool.and_eq_false_iff] at h
    cases hr : rowOk env output i t1 t2 with
    | false =>
      rw [processRows_cons, if_neg (by simp [hr])]
      simp [okPrefixLen, hr]
    | true =>
      have hrest : allRowsOk env output (i + 1) rest = false := by
        rcases h with h | h
        · rw [hr] at h; cases h
        · exact h
      rw [processRows_cons, if_pos hr, processRows_fail env output (i + 1) rest hrest]
      have harith : i + 1 + okPrefixLen env output (i + 1) rest =
          i + (okPrefixLen env output (i + 1) rest + 1) := by omega
      simp [okPrefixLen, hr, harith]

theorem okPrefixLen_lt_length (env : SlicerEnv) (output : String) :
    ∀ (i : Nat) (pairs : List (String × String)),
      allRowsOk env output i pairs = false →
      okPrefixLen env output i pairs < pairs.length
  | _, [], h => by simp [allRowsOk] at h
  | i, (t1, t2) :: rest, h => by
    simp only [allRowsOk, Bool.and_eq_false_iff] at h
    cases hr : rowOk env output i t1 t2 with
    | false => simp [okPrefixLen, hr]
    | true =>
      have hrest : allRowsOk env output (i + 1) rest = false := by
        rcases h with h | h
        · rw [hr] at h; cases h
        · exact h
      have := okPrefixLen_lt_length env output (i + 1) rest hrest
      simp [okPrefixLen, hr]
      omega

theorem okPrefixLen_eq_length_of_all_ok (env : SlicerEnv) (output : String) :
    ∀ (i : Nat) (pairs : List (String × String)),
      allRowsOk env output i pairs = true →
      okPrefixLen env output i pairs = pairs.length
  | _, [], _ => rfl
  | i, (t1, t2) :: rest, h => by
    simp only [allRowsOk, Bool.and_eq_true] at h
    simp [okPrefixLen, h.1, okPrefixLen_eq_length_of_all_ok env output (i + 1) rest h.2]

theorem allRowsOk_false_of_row_fail (env : SlicerEnv) (output : String) :
    ∀ (i : Nat) (pairs : List (String × String)) (j : Nat) (t1 t2 : String),
      pairs[j]? = some (t1, t2) →
      rowOk env output (i + j) t1 t2 = false →
      allRowsOk env output i pairs = false
  | _, [], j, _, _, hj, _ => by simp at hj
  | i, (u1, u2) :: rest, 0, t1, t2, hj, hf => by
    simp at hj
    simp [allRowsOk, ← hj.1, ← hj.2]
    intro h
    rw [show i + 0 = i by omega] at hf
    rw [hj.1, hj.2] at h
    rw [h] at hf
    cases hf
  | i, (u1, u2) :: rest, j + 1, t1, t2, hj, hf => by
    simp only [List.getElem?_cons_succ] at hj
    have hf' : rowOk env output (i + 1 + j) t1 t2 = false := by
      rw [show i + 1 + j = i + (j + 1) by omega]; exact hf
    have := allRowsOk_false_of_row_fail env output (i + 1) rest j t1 t2 hj hf'
    simp [allRowsOk, this]

theorem okPrefixLen_le_of_row_fail (env : SlicerEnv) (output : String) :
    ∀ (i : Nat) (pairs : List (String × String)) (j : Nat) (t1 t2 : String),
      pairs[j]? = some (t1, t2) →
      rowOk env output (i + j) t1 t2 = false →
      okPrefixLen env output i pairs ≤ j
  | _, [], j, _, _, hj, _ => by simp at hj
  | i, (u1, u2) :: rest, 0, t1, t2, hj, hf => by
    simp at hj
    have : rowOk env output i u1 u2 = false := by
      rw [hj.1, hj.2]
      rw [show i + 0 = i by omega] at hf
      exact hf
    simp [okPrefixLen, this]
  | i, (u1, u2) :: rest, j + 1, t1, t2, hj, hf => by
    simp only [List.getElem?_cons_succ] at hj
    have hf' : rowOk env output (i + 1 + j) t1 t2 = false := by
      rw [show i + 1 + j = i + (j + 1) by omega]; exact hf
    have := okPrefixLen_le_of_row_fail env output (i + 1) rest j t1 t2 hj hf'
    cases hr : rowOk env output i u1 u2 <;> simp [okPrefixLen, hr] <;> omega

/-! ### Helper lemmas about `run` -/

theorem getColumn_eq_some (df : DataFrame) (name : String) (col : List String)
    (h : df.getColumn name = some col) :
    ∃ ix, colIndex name df.header = some ix ∧
      col = df.rows.map (fun r => r.getD ix "") := by
  unfold DataFrame.getColumn at h
  cases hci : colIndex name df.header with
  | none => rw [hci] at h; cases h
  | some ix =>
    rw [hci] at h
    injection h with h
    exact ⟨ix, rfl, h.symm⟩

theorem validation_passes (fs : FS) (hout : fs.outputExists = false ∨ fs.outputIsDir = true) :
    (fs.outputExists && !fs.outputIsDir) = false := by
  rcases hout with h | h <;> simp [h]

/-- When the input CSV exists, the output path is an existing directory,
both columns resolve and every row succeeds, `run` returns the full trace:
one save per row, the manifest write, the two module selections and the three
configuration writes.  (With a nonexistent output directory this branch is
unreachable: `to_csv` raises an `OSError` instead.) -/
theorem run_trace_all_ok (fs : FS) (env : SlicerEnv) (inputCSV template output : String)
    (tp1s tp2s : List String)
    (hin : fs.inputExists = true)
    (houtE : fs.outputExists = true)
    (houtD : fs.outputIsDir = true)
    (h1 : fs.table.getColumn "Timepoint 1" = some tp1s)
    (h2 : fs.table.getColumn "Timepoint 2" = some tp2s)
    (hok : allRowsOk env output 0 (tp1s.zip tp2s) = true) :
    run fs env inputCSV template output =
      Except.ok ((tp1s.zip tp2s).map (fun p => Effect.savedModel (outPath output p.1 p.2)) ++
        [Effect.wroteManifest (pathJoin output "mfsdaInputFiles.csv")
           ((fs.table.dropCols ["Timepoint 1", "Timepoint 2"]).insertCol0 "VTK File"
             ((tp1s.zip tp2s).map (fun p => outPath output p.1 p.2))),
         Effect.selectedModule "mfsda",
         Effect.selectedModule "differencestatistics",
         Effect.setPShape template,
         Effect.setOutputDir output,
         Effect.setCsv (pathJoin output "mfsdaInputFiles.csv")]) := by
  have hp := processRows_all_ok env output 0 (tp1s.zip tp2s) hok
  simp [run, hin, houtE, houtD, h1, h2, hp]

/-- When validation passes, both columns resolve and some row fails, `run`
returns normally with exactly the saves of the leading successful rows
followed by the error print of the first failing row: nothing else happens. -/
theorem run_trace_fail (fs : FS) (env : SlicerEnv) (inputCSV template output : String)
    (tp1s tp2s : List String)
    (hin : fs.inputExists = true)
    (hout : fs.outputExists = false ∨ fs.outputIsDir = true)
    (h1 : fs.table.getColumn "Timepoint 1" = some tp1s)
    (h2 : fs.table.getColumn "Timepoint 2" = some tp2s)
    (hfail : allRowsOk env output 0 (tp1s.zip tp2s) = false) :
    run fs env inputCSV template output =
      Except.ok (((tp1s.zip tp2s).take (okPrefixLen env output 0 (tp1s.zip tp2s))).map
          (fun p => Effect.savedModel (outPath output p.1 p.2)) ++
        [Effect.printedError (okPrefixLen env output 0 (tp1s.zip tp2s))]) := by
  have hv := validation_passes fs hout
  have hp := processRows_fail env output 0 (tp1s.zip tp2s) hfail
  simp [run, hin, hv, h1, h2, hp]

/-! ### Claim theorems -/

/-- C2 counterexample: the input CSV exists and the output path does not
exist — hence is not a directory — yet `run` does not raise a `ValueError`
immediately: validation lets the call through (the source only rejects an
output path that *exists* and is not a directory), the table is read, and the
call then fails with a `KeyError` from the column access — exactly what the
program does at this input — not with the immediate `ValueError` the claim
promises. -/
theorem run_nonexistent_output_not_rejected :
    fsNoOutputMissingTp1.outputIsDir = false ∧
    run fsNoOutputMissingTp1 envAllOk "/data/in.csv" "/data/template.vtk" "/out" =
      Except.error (PyError.keyError "Timepoint 1") := by
  exact ⟨rfl, rfl⟩

/-- With a nonexistent output directory and a loop that completes, the
manifest write itself fails: `run` ends in an uncaught `OSError` from
`to_csv`, and the statistics module is never configured. -/
theorem run_to_csv_fails_without_output_dir :
    run fsNoOutput envAllOk "/data/in.csv" "/data/template.vtk" "/out" =
      Except.error (PyError.osError "Cannot save file into a non-existent directory") := by
  exact rfl

/-- C2 (amended): if the input CSV path does not exist, or the output path
exists and is not a directory, `run` raises a `ValueError` immediately: the
result is an uncaught `ValueError` whatever table the input CSV would parse
to — so before the table is read and before any row is processed — and the
error result carries no effects. -/
theorem run_invalid_paths_raise_before_table_read
    (fs : FS) (env : SlicerEnv) (inputCSV template output : String)
    (h : fs.inputExists = false ∨ (fs.outputExists = true ∧ fs.outputIsDir = false)) :
    ∀ tbl : DataFrame,
      isValueError (run { fs with table := tbl } env inputCSV template output) = true := by
  intro tbl
  by_cases hin : fs.inputExists = true
  · rcases h with h | ⟨h1, h2⟩
    · rw [hin] at h; cases h
    · simp [run, isValueError, hin, h1, h2]
  · have hin2 : fs.inputExists = false := by
      cases hfs : fs.inputExists
      · rfl
      · exact absurd hfs hin
    simp [run, isValueError, hin2]

/-- Witness for the amended C2 at a concrete input: the input CSV does not
exist and `run` yields a `ValueError`. -/
theorem run_invalid_paths_raise_before_table_read_witness :
    isValueError (run { fsNoInput with table := tableSample } envAllOk
      "/data/in.csv" "/data/template.vtk" "/out") = true :=
  run_invalid_paths_raise_before_table_read fsNoInput envAllOk
    "/data/in.csv" "/data/template.vtk" "/out" (Or.inl rfl) tableSample

/-- C10: with valid paths but an input table lacking the `Timepoint 1` or the
`Timepoint 2` column, `run` ends in an uncaught `KeyError` from the column
access: the per-row handler (which lives inside the loop) never runs, the
error propagates to the caller, and the error result carries no effects — no
difference mesh is saved and no manifest is written. -/
theorem run_missing_timepoint_column_raises
    (fs : FS) (env : SlicerEnv) (inputCSV template output : String)
    (hin : fs.inputExists = true)
    (hout : fs.outputExists = false ∨ fs.outputIsDir = true)
    (hmiss : fs.table.getColumn "Timepoint 1" = none ∨
      fs.table.getColumn "Timepoint 2" = none) :
    ∃ key, (key = "Timepoint 1" ∨ key = "Timepoint 2") ∧
      run fs env inputCSV template output = Except.error (PyError.keyError key) := by
  have hv := validation_passes fs hout
  cases hc1 : fs.table.getColumn "Timepoint 1" with
  | none => exact ⟨"Timepoint 1", Or.inl rfl, by simp [run, hin, hv, hc1]⟩
  | some tp1s =>
    have hc2 : fs.table.getColumn "Timepoint 2" = none := by
      rcases hmiss with h | h
      · rw [hc1] at h; cases h
      · exact h
    exact ⟨"Timepoint 2", Or.inr rfl, by simp [run, hin, hv, hc1, hc2]⟩

/-- Witness for C10 at a concrete input: a table with no `Timepoint 2`
column makes `run` raise a `KeyError`. -/
theorem run_missing_timepoint_column_raises_witness :
    ∃ key, (key = "Timepoint 1" ∨ key = "Timepoint 2") ∧
      run fsMissingTp2 envAllOk "/data/in.csv" "/data/template.vtk" "/out" =
        Except.error (PyError.keyError key) :=
  run_missing_timepoint_column_raises fsMissingTp2 envAllOk
    "/data/in.csv" "/data/template.vtk" "/out" rfl (Or.inr rfl) (Or.inr rfl)

/-- C8: with both timepoint columns present but zero data rows, `run`
processes no pairs (the trace holds no saves and no error print), writes a
manifest consisting only of the header row `"VTK File"` followed by the
covariate names, and still selects the modules and sets the three path fields
of the statistics module. -/
theorem run_empty_table_header_only_manifest
    (fs : FS) (env : SlicerEnv) (inputCSV template output : String)
    (hin : fs.inputExists = true)
    (houtE : fs.outputExists = true)
    (houtD : fs.outputIsDir = true)
    (hc1 : (colIndex "Timepoint 1" fs.table.header).isSome = true)
    (hc2 : (colIndex "Timepoint 2" fs.table.header).isSome = true)
    (hrows : fs.table.rows = []) :
    run fs env inputCSV template output =
      Except.ok
        [Effect.wroteManifest (pathJoin output "mfsdaInputFiles.csv")
           ⟨"VTK File" :: (fs.table.dropCols ["Timepoint 1", "Timepoint 2"]).header, []⟩,
         Effect.selectedModule "mfsda",
         Effect.selectedModule "differencestatistics",
         Effect.setPShape template,
         Effect.setOutputDir output,
         Effect.setCsv (pathJoin output "mfsdaInputFiles.csv")] := by
  rcases Option.isSome_iff_exists.mp hc1 with ⟨ix1, hix1⟩
  rcases Option.isSome_iff_exists.mp hc2 with ⟨ix2, hix2⟩
  have h1 : fs.table.getColumn "Timepoint 1" = some [] := by
    simp [DataFrame.getColumn, hix1, hrows]
  have h2 : fs.table.getColumn "Timepoint 2" = some [] := by
    simp [DataFrame.getColumn, hix2, hrows]
  have h := run_trace_all_ok fs env inputCSV template output [] [] hin houtE houtD h1 h2 rfl
  simpa [DataFrame.insertCol0] using h

/-- Witness for C8 at a concrete input: an empty two-subject table produces a
header-only manifest and the three configuration writes. -/
theorem run_empty_table_header_only_manifest_witness :
    run fsNoRows envAllOk "/data/in.csv" "/data/template.vtk" "/out" =
      Except.ok
        [Effect.wroteManifest (pathJoin "/out" "mfsdaInputFiles.csv")
           ⟨"VTK File" :: (fsNoRows.table.dropCols ["Timepoint 1", "Timepoint 2"]).header, []⟩,
         Effect.selectedModule "mfsda",
         Effect.selectedModule "differencestatistics",
         Effect.setPShape "/data/template.vtk",
         Effect.setOutputDir "/out",
         Effect.setCsv (pathJoin "/out" "mfsdaInputFiles.csv")] :=
  run_empty_table_header_only_manifest fsNoRows envAllOk
    "/data/in.csv" "/data/template.vtk" "/out" rfl rfl rfl rfl rfl rfl

/-- C1: if validation passes and loading a model or the per-row distance
computation raises for some row, `run` catches the exception and aborts the
batch: it returns normally (`Except.ok`, no re-raise), its entire trace is the
saves of the leading successful rows followed by one error print (exception
logged) — so no row after the first failing one is processed — no manifest is
ever written, and none of the statistics-module fields is set. -/
theorem run_row_failure_aborts_batch
    (fs : FS) (env : SlicerEnv) (inputCSV template output : String)
    (tp1s tp2s : List String) (i : Nat) (t1 t2 : String)
    (hin : fs.inputExists = true)
    (hout : fs.outputExists = false ∨ fs.outputIsDir = true)
    (h1 : fs.table.getColumn "Timepoint 1" = some tp1s)
    (h2 : fs.table.getColumn "Timepoint 2" = some tp2s)
    (hrow : (tp1s.zip tp2s)[i]? = some (t1, t2))
    (hfail : (env.loadModelOk t1 && env.loadModelOk t2 && env.distanceOk i) = false) :
    ∃ k effs, k ≤ i ∧
      run fs env inputCSV template output = Except.ok effs ∧
      effs = ((tp1s.zip tp2s).take k).map
          (fun p => Effect.savedModel (outPath output p.1 p.2)) ++
        [Effect.printedError k] ∧
      (∀ p m, Effect.wroteManifest p m ∉ effs) ∧
      (∀ s, Effect.setPShape s ∉ effs ∧ Effect.setOutputDir s ∉ effs ∧
        Effect.setCsv s ∉ effs) := by
  have hri : rowOk env output i t1 t2 = false := by
    simp only [rowOk, hfail, Bool.false_and]
  have hrFail : rowOk env output (0 + i) t1 t2 = false := by
    rw [Nat.zero_add]; exact hri
  have hall : allRowsOk env output 0 (tp1s.zip tp2s) = false :=
    allRowsOk_false_of_row_fail env output 0 (tp1s.zip tp2s) i t1 t2 hrow hrFail
  have hk := okPrefixLen_le_of_row_fail env output 0 (tp1s.zip tp2s) i t1 t2 hrow hrFail
  refine ⟨okPrefixLen env output 0 (tp1s.zip tp2s), _, hk,
    run_trace_fail fs env inputCSV template output tp1s tp2s hin hout h1 h2 hall,
    rfl, ?_, ?_⟩
  · intro p m hm
    simp only [List.mem_append, List.mem_map, List.mem_singleton] at hm
    rcases hm with ⟨q, _, hq⟩ | hq <;> cases hq
  · intro s
    refine ⟨?_, ?_, ?_⟩ <;> intro hm <;>
      simp only [List.mem_append, List.mem_map, List.mem_singleton] at hm <;>
      (rcases hm with ⟨q, _, hq⟩ | hq <;> cases hq)

/-- Witness for C1 at a concrete input: loading the second pair's first model
fails, so `run` saves the first pair's mesh, prints one error, and stops. -/
theorem run_row_failure_aborts_batch_witness :
    ∃ k effs, k ≤ 1 ∧
      run fsSample envFailRow1 "/data/in.csv" "/data/template.vtk" "/out" =
        Except.ok effs ∧
      effs = ((tp1Sample.zip tp2Sample).take k).map
          (fun p => Effect.savedModel (outPath "/out" p.1 p.2)) ++
        [Effect.printedError k] ∧
      (∀ p m, Effect.wroteManifest p m ∉ effs) ∧
      (∀ s, Effect.setPShape s ∉ effs ∧ Effect.setOutputDir s ∉ effs ∧
        Effect.setCsv s ∉ effs) :=
  run_row_failure_aborts_batch fsSample envFailRow1 "/data/in.csv"
    "/data/template.vtk" "/out" tp1Sample tp2Sample 1
    "/data/s2_tp1.vtk" "/data/s2_tp2.vtk" rfl (Or.inr rfl) rfl rfl rfl rfl

theorem filter_isSavedEffect_saved_map (output : String) (l : List (String × String)) :
    (l.map (fun p => Effect.savedModel (outPath output p.1 p.2))).filter isSavedEffect =
      l.map (fun p => Effect.savedModel (outPath output p.1 p.2)) := by
  apply List.filter_eq_self.mpr
  intro e he
  rcases List.mem_map.mp he with ⟨p, _, hp⟩
  rw [← hp]; rfl

theorem filter_isRowEffect_saved_map (output : String) (l : List (String × String)) :
    (l.map (fun p => Effect.savedModel (outPath output p.1 p.2))).filter isRowEffect =
      l.map (fun p => Effect.savedModel (outPath output p.1 p.2)) := by
  apply List.filter_eq_self.mpr
  intro e he
  rcases List.mem_map.mp he with ⟨p, _, hp⟩
  rw [← hp]; rfl

theorem filter_isSetEffect_saved_map (output : String) (l : List (String × String)) :
    (l.map (fun p => Effect.savedModel (outPath output p.1 p.2))).filter isSetEffect = [] := by
  apply List.filter_eq_nil.mpr
  intro e he
  rcases List.mem_map.mp he with ⟨p, _, hp⟩
  rw [← hp]; simp [isSetEffect]

theorem contains_timepoints_eq (a : String) :
    (["Timepoint 1", "Timepoint 2"].contains a) =
      (a == "Timepoint 1" || a == "Timepoint 2") := by
  by_cases e1 : a = "Timepoint 1" <;> by_cases e2 : a = "Timepoint 2" <;>
    simp [List.contains, e1, e2]

theorem dropCols_timepoints_header (header : List String) :
    (header.filter (fun c => !(["Timepoint 1", "Timepoint 2"].contains c))) =
      header.filter (fun c => !(c == "Timepoint 1" || c == "Timepoint 2")) := by
  apply List.filter_congr
  intro a _
  rw [contains_timepoints_eq]

/-- C3: with an existing input CSV, an existing output directory and both
columns present, the difference meshes `run` saves are exactly one per
successfully processed row (the leading `okPrefixLen` rows of the batch, all
rows when every row succeeds), in input order, each at the output directory
joined with `"<stem of tp2>-<stem of tp1>.vtk"`, where `stem` keeps the base
name after the last `/` and strips the extension. -/
theorem run_saved_file_per_successful_row
    (fs : FS) (env : SlicerEnv) (inputCSV template output : String)
    (tp1s tp2s : List String)
    (hin : fs.inputExists = true)
    (houtE : fs.outputExists = true)
    (houtD : fs.outputIsDir = true)
    (h1 : fs.table.getColumn "Timepoint 1" = some tp1s)
    (h2 : fs.table.getColumn "Timepoint 2" = some tp2s) :
    ∃ effs, run fs env inputCSV template output = Except.ok effs ∧
      effs.filter isSavedEffect =
        ((tp1s.zip tp2s).take (okPrefixLen env output 0 (tp1s.zip tp2s))).map
          (fun p => Effect.savedModel
            (pathJoin output (stem p.2 ++ "-" ++ stem p.1 ++ ".vtk"))) := by
  cases hall : allRowsOk env output 0 (tp1s.zip tp2s) with
  | true =>
    refine ⟨_, run_trace_all_ok fs env inputCSV template output tp1s tp2s
      hin houtE houtD h1 h2 hall, ?_⟩
    rw [List.filter_append, filter_isSavedEffect_saved_map,
      okPrefixLen_eq_length_of_all_ok env output 0 _ hall, List.take_length]
    simp [isSavedEffect, outPath, outName]
  | false =>
    refine ⟨_, run_trace_fail fs env inputCSV template output tp1s tp2s
      hin (Or.inr houtD) h1 h2 hall, ?_⟩
    rw [List.filter_append, filter_isSavedEffect_saved_map]
    simp [isSavedEffect, outPath, outName]

/-- Witness for C3 at a concrete input with every row succeeding: both rows
get exactly one saved mesh named from the timepoint stems. -/
theorem run_saved_file_per_successful_row_witness :
    ∃ effs, run fsSample envAllOk "/data/in.csv" "/data/template.vtk" "/out" =
        Except.ok effs ∧
      effs.filter isSavedEffect =
        ((tp1Sample.zip tp2Sample).take
            (okPrefixLen envAllOk "/out" 0 (tp1Sample.zip tp2Sample))).map
          (fun p => Effect.savedModel
            (pathJoin "/out" (stem p.2 ++ "-" ++ stem p.1 ++ ".vtk"))) :=
  run_saved_file_per_successful_row fsSample envAllOk "/data/in.csv"
    "/data/template.vtk" "/out" tp1Sample tp2Sample rfl rfl rfl rfl rfl

/-- C4: when the input CSV exists, the output path is an existing directory,
both columns resolve and every row succeeds, `run` writes the manifest at the
output directory joined with `"mfsdaInputFiles.csv"`, and its header is
exactly `"VTK File"` followed by every input column other than `Timepoint 1`
and `Timepoint 2`, in their original order. -/
theorem run_manifest_columns
    (fs : FS) (env : SlicerEnv) (inputCSV template output : String)
    (tp1s tp2s : List String)
    (hin : fs.inputExists = true)
    (houtE : fs.outputExists = true)
    (houtD : fs.outputIsDir = true)
    (h1 : fs.table.getColumn "Timepoint 1" = some tp1s)
    (h2 : fs.table.getColumn "Timepoint 2" = some tp2s)
    (hok : allRowsOk env output 0 (tp1s.zip tp2s) = true) :
    ∃ effs m, run fs env inputCSV template output = Except.ok effs ∧
      Effect.wroteManifest (pathJoin output "mfsdaInputFiles.csv") m ∈ effs ∧
      m.header = "VTK File" ::
        fs.table.header.filter (fun c => !(c == "Timepoint 1" || c == "Timepoint 2")) := by
  refine ⟨_, (fs.table.dropCols ["Timepoint 1", "Timepoint 2"]).insertCol0 "VTK File"
      ((tp1s.zip tp2s).map (fun p => outPath output p.1 p.2)),
    run_trace_all_ok fs env inputCSV template output tp1s tp2s hin houtE houtD h1 h2 hok,
    ?_, ?_⟩
  · simp [List.mem_append]
  · simp only [DataFrame.insertCol0, DataFrame.dropCols]
    rw [dropCols_timepoints_header]

/-- Witness for C4 at a concrete input: the manifest header is
`["VTK File", "Age"]` in that order. -/
theorem run_manifest_columns_witness :
    ∃ effs m, run fsSample envAllOk "/data/in.csv" "/data/template.vtk" "/out" =
        Except.ok effs ∧
      Effect.wroteManifest (pathJoin "/out" "mfsdaInputFiles.csv") m ∈ effs ∧
      m.header = "VTK File" ::
        fsSample.table.header.filter
          (fun c => !(c == "Timepoint 1" || c == "Timepoint 2")) :=
  run_manifest_columns fsSample envAllOk "/data/in.csv" "/data/template.vtk"
    "/out" tp1Sample tp2Sample rfl rfl rfl rfl rfl rfl

/-- C5: when the manifest is written (which happens exactly when every row
succeeds), its column order is `"VTK File"` followed by the covariate columns
in input order, its row count equals the number of successfully processed
pairs (here, all of them), and the first cell of each row is the output path
generated for the corresponding input row, in input order. -/
theorem run_manifest_rows_align_with_inputs
    (fs : FS) (env : SlicerEnv) (inputCSV template output : String)
    (tp1s tp2s : List String)
    (hin : fs.inputExists = true)
    (houtE : fs.outputExists = true)
    (houtD : fs.outputIsDir = true)
    (h1 : fs.table.getColumn "Timepoint 1" = some tp1s)
    (h2 : fs.table.getColumn "Timepoint 2" = some tp2s)
    (hok : allRowsOk env output 0 (tp1s.zip tp2s) = true) :
    ∃ effs m, run fs env inputCSV template output = Except.ok effs ∧
      Effect.wroteManifest (pathJoin output "mfsdaInputFiles.csv") m ∈ effs ∧
      m.header = "VTK File" :: (fs.table.dropCols ["Timepoint 1", "Timepoint 2"]).header ∧
      m.rows.length = (tp1s.zip tp2s).length ∧
      m.rows.map List.head? =
        (tp1s.zip tp2s).map (fun p => some (outPath output p.1 p.2)) := by
  rcases getColumn_eq_some _ _ _ h1 with ⟨ix1, hix1, htp1⟩
  rcases getColumn_eq_some _ _ _ h2 with ⟨ix2, hix2, htp2⟩
  have hlen1 : tp1s.length = fs.table.rows.length := by rw [htp1, List.length_map]
  have hlen2 : tp2s.length = fs.table.rows.length := by rw [htp2, List.length_map]
  have hplen : (tp1s.zip tp2s).length = fs.table.rows.length := by
    rw [List.length_zip, hlen1, hlen2, Nat.min_self]
  have hclen : (fs.table.dropCols ["Timepoint 1", "Timepoint 2"]).rows.length =
      fs.table.rows.length := by
    simp [DataFrame.dropCols]
  have hnlen : ((tp1s.zip tp2s).map (fun p => outPath output p.1 p.2)).length =
      (tp1s.zip tp2s).length := List.length_map _ _
  refine ⟨_, (fs.table.dropCols ["Timepoint 1", "Timepoint 2"]).insertCol0 "VTK File"
      ((tp1s.zip tp2s).map (fun p => outPath output p.1 p.2)),
    run_trace_all_ok fs env inputCSV template output tp1s tp2s hin houtE houtD h1 h2 hok,
    ?_, rfl, ?_, ?_⟩
  · simp [List.mem_append]
  · simp only [DataFrame.insertCol0]
    rw [List.length_map, List.length_zip, hnlen, hclen, hplen, Nat.min_self]
  · simp only [DataFrame.insertCol0]
    have hstep1 :
        ((((tp1s.zip tp2s).map (fun p => outPath output p.1 p.2)).zip
          (fs.table.dropCols ["Timepoint 1", "Timepoint 2"]).rows).map
            (fun p => p.1 :: p.2)).map List.head? =
        ((((tp1s.zip tp2s).map (fun p => outPath output p.1 p.2)).zip
          (fs.table.dropCols ["Timepoint 1", "Timepoint 2"]).rows).map Prod.fst).map
            Option.some := by
      rw [List.map_map, List.map_map]; rfl
    rw [hstep1, List.map_fst_zip _ _ (by rw [hnlen, hclen, hplen]), List.map_map]
    rfl

/-- Witness for C5 at a concrete input: the two-row sample table yields a
two-row manifest whose first column is the generated paths in order. -/
theorem run_manifest_rows_align_with_inputs_witness :
    ∃ effs m, run fsSample envAllOk "/data/in.csv" "/data/template.vtk" "/out" =
        Except.ok effs ∧
      Effect.wroteManifest (pathJoin "/out" "mfsdaInputFiles.csv") m ∈ effs ∧
      m.header = "VTK File" ::
        (fsSample.table.dropCols ["Timepoint 1", "Timepoint 2"]).header ∧
      m.rows.length = (tp1Sample.zip tp2Sample).length ∧
      m.rows.map List.head? =
        (tp1Sample.zip tp2Sample).map (fun p => some (outPath "/out" p.1 p.2)) :=
  run_manifest_rows_align_with_inputs fsSample envAllOk "/data/in.csv"
    "/data/template.vtk" "/out" tp1Sample tp2Sample rfl rfl rfl rfl rfl rfl

/-- C6: when every row succeeds, the trace after the row saves is exactly the
manifest write followed by the module selections and then precisely three
configuration writes: the template-shape path is set to the template argument,
the output directory to the output argument, and the CSV path to the manifest
path (output directory joined with `"mfsdaInputFiles.csv"`). -/
theorem run_configures_statistics_module
    (fs : FS) (env : SlicerEnv) (inputCSV template output : String)
    (tp1s tp2s : List String)
    (hin : fs.inputExists = true)
    (houtE : fs.outputExists = true)
    (houtD : fs.outputIsDir = true)
    (h1 : fs.table.getColumn "Timepoint 1" = some tp1s)
    (h2 : fs.table.getColumn "Timepoint 2" = some tp2s)
    (hok : allRowsOk env output 0 (tp1s.zip tp2s) = true) :
    ∃ effs m, run fs env inputCSV template output = Except.ok effs ∧
      effs = (tp1s.zip tp2s).map (fun p => Effect.savedModel (outPath output p.1 p.2)) ++
        [Effect.wroteManifest (pathJoin output "mfsdaInputFiles.csv") m,
         Effect.selectedModule "mfsda",
         Effect.selectedModule "differencestatistics",
         Effect.setPShape template,
         Effect.setOutputDir output,
         Effect.setCsv (pathJoin output "mfsdaInputFiles.csv")] ∧
      effs.filter isSetEffect =
        [Effect.setPShape template, Effect.setOutputDir output,
         Effect.setCsv (pathJoin output "mfsdaInputFiles.csv")] := by
  refine ⟨_, _,
    run_trace_all_ok fs env inputCSV template output tp1s tp2s hin houtE houtD h1 h2 hok,
    rfl, ?_⟩
  rw [List.filter_append, filter_isSetEffect_saved_map, List.nil_append]
  rfl

/-- Witness for C6 at a concrete input: the sample run ends with exactly the
three configuration writes after the manifest write. -/
theorem run_configures_statistics_module_witness :
    ∃ effs m, run fsSample envAllOk "/data/in.csv" "/data/template.vtk" "/out" =
        Except.ok effs ∧
      effs = (tp1Sample.zip tp2Sample).map
          (fun p => Effect.savedModel (outPath "/out" p.1 p.2)) ++
        [Effect.wroteManifest (pathJoin "/out" "mfsdaInputFiles.csv") m,
         Effect.selectedModule "mfsda",
         Effect.selectedModule "differencestatistics",
         Effect.setPShape "/data/template.vtk",
         Effect.setOutputDir "/out",
         Effect.setCsv (pathJoin "/out" "mfsdaInputFiles.csv")] ∧
      effs.filter isSetEffect =
        [Effect.setPShape "/data/template.vtk", Effect.setOutputDir "/out",
         Effect.setCsv (pathJoin "/out" "mfsdaInputFiles.csv")] :=
  run_configures_statistics_module fsSample envAllOk "/data/in.csv"
    "/data/template.vtk" "/out" tp1Sample tp2Sample rfl rfl rfl rfl rfl rfl

/-- Every write in the full success trace targets a path under the output
directory (a path of the form `output ++ "/" ++ s`). -/
theorem trace_writes_confined (output template : String)
    (pairs : List (String × String)) (m : DataFrame) :
    ∀ e ∈ (pairs.map (fun p => Effect.savedModel (outPath output p.1 p.2)) ++
      [Effect.wroteManifest (pathJoin output "mfsdaInputFiles.csv") m,
       Effect.selectedModule "mfsda",
       Effect.selectedModule "differencestatistics",
       Effect.setPShape template,
       Effect.setOutputDir output,
       Effect.setCsv (pathJoin output "mfsdaInputFiles.csv")]),
      ∀ q, writesPath e = some q → ∃ s, q = pathJoin output s := by
  intro e he q hw
  rcases List.mem_append.mp he with hq | hq
  · rcases List.mem_map.mp hq with ⟨p, _, hp⟩
    rw [← hp] at hw
    simp only [writesPath, Option.some.injEq] at hw
    exact ⟨outName p.1 p.2 ++ ".vtk", hw.symm⟩
  · simp only [List.mem_cons, List.not_mem_nil, or_false] at hq
    rcases hq with hq | hq | hq | hq | hq | hq
    · rw [hq] at hw
      simp only [writesPath, Option.some.injEq] at hw
      exact ⟨"mfsdaInputFiles.csv", hw.symm⟩
    · rw [hq] at hw; simp [writesPath] at hw
    · rw [hq] at hw; simp [writesPath] at hw
    · rw [hq] at hw; simp [writesPath] at hw
    · rw [hq] at hw; simp [writesPath] at hw
    · rw [hq] at hw; simp [writesPath] at hw

/-- C7: every column other than `Timepoint 1` and `Timepoint 2` is an inert
covariate: for two tables agreeing on those two columns, `run` emits the same
per-row effects (the same models loaded, the same saves at identically named
files, the same error print, in the same order) whatever the other columns
are, and any manifest written carries all non-timepoint columns of the input,
in order. -/
theorem run_covariates_are_inert
    (fs fs' : FS) (env : SlicerEnv) (inputCSV inputCSV' template output : String)
    (tp1s tp2s : List String)
    (hin : fs.inputExists = true) (hin' : fs'.inputExists = true)
    (houtE : fs.outputExists = true) (houtD : fs.outputIsDir = true)
    (houtE' : fs'.outputExists = true) (houtD' : fs'.outputIsDir = true)
    (h1 : fs.table.getColumn "Timepoint 1" = some tp1s)
    (h2 : fs.table.getColumn "Timepoint 2" = some tp2s)
    (h1' : fs'.table.getColumn "Timepoint 1" = some tp1s)
    (h2' : fs'.table.getColumn "Timepoint 2" = some tp2s) :
    ∃ effs effs',
      run fs env inputCSV template output = Except.ok effs ∧
      run fs' env inputCSV' template output = Except.ok effs' ∧
      effs.filter isRowEffect = effs'.filter isRowEffect ∧
      (∀ p m, Effect.wroteManifest p m ∈ effs →
        m.header = "VTK File" ::
          fs.table.header.filter (fun c => !(c == "Timepoint 1" || c == "Timepoint 2"))) := by
  cases hall : allRowsOk env output 0 (tp1s.zip tp2s) with
  | false =>
    refine ⟨_, _,
      run_trace_fail fs env inputCSV template output tp1s tp2s hin
        (Or.inr houtD) h1 h2 hall,
      run_trace_fail fs' env inputCSV' template output tp1s tp2s hin'
        (Or.inr houtD') h1' h2' hall,
      rfl, ?_⟩
    intro p m hm
    simp only [List.mem_append, List.mem_map, List.mem_singleton] at hm
    rcases hm with ⟨q, _, hq⟩ | hq <;> cases hq
  | true =>
    refine ⟨_, _,
      run_trace_all_ok fs env inputCSV template output tp1s tp2s hin
        houtE houtD h1 h2 hall,
      run_trace_all_ok fs' env inputCSV' template output tp1s tp2s hin'
        houtE' houtD' h1' h2' hall,
      ?_, ?_⟩
    · rw [List.filter_append, List.filter_append, filter_isRowEffect_saved_map]
      rfl
    · intro p m hm
      rcases List.mem_append.mp hm with hq | hq
      · rcases List.mem_map.mp hq with ⟨q, _, hq⟩
        cases hq
      · simp only [List.mem_cons, List.not_mem_nil, or_false] at hq
        rcases hq with hq | hq | hq | hq | hq | hq
        · injection hq with hq1 hq2
          rw [hq2]
          simp only [DataFrame.insertCol0, DataFrame.dropCols]
          rw [dropCols_timepoints_header]
        · cases hq
        · cases hq
        · cases hq
        · cases hq
        · cases hq

/-- Witness for C7 at concrete inputs: the sample table and the same table
with the covariate renamed and revalued produce identical per-row effects. -/
theorem run_covariates_are_inert_witness :
    ∃ effs effs',
      run fsSample envAllOk "/data/in.csv" "/data/template.vtk" "/out" =
        Except.ok effs ∧
      run (FS.mk true true true
          ⟨["Timepoint 1", "Timepoint 2", "Sex", "Weight"],
           [["/data/s1_tp1.vtk", "/data/s1_tp2.vtk", "F", "61"],
            ["/data/s2_tp1.vtk", "/data/s2_tp2.vtk", "M", "82"]]⟩)
        envAllOk "/data/other.csv" "/data/template.vtk" "/out" = Except.ok effs' ∧
      effs.filter isRowEffect = effs'.filter isRowEffect ∧
      (∀ p m, Effect.wroteManifest p m ∈ effs →
        m.header = "VTK File" ::
          fsSample.table.header.filter
            (fun c => !(c == "Timepoint 1" || c == "Timepoint 2"))) :=
  run_covariates_are_inert fsSample
    (FS.mk true true true
      ⟨["Timepoint 1", "Timepoint 2", "Sex", "Weight"],
       [["/data/s1_tp1.vtk", "/data/s1_tp2.vtk", "F", "61"],
        ["/data/s2_tp1.vtk", "/data/s2_tp2.vtk", "M", "82"]]⟩)
    envAllOk "/data/in.csv" "/data/other.csv" "/data/template.vtk" "/out"
    tp1Sample tp2Sample rfl rfl rfl rfl rfl rfl rfl rfl rfl rfl

/-- C9: the manifest is a pure extension of the input table: its header is
`"VTK File"` then the non-timepoint column names unaltered, and each of its
rows is the generated output path followed by exactly that input row's
non-timepoint cell values, in order.  Moreover every file `run` writes has a
path of the form `output ++ "/" ++ s`, so when the input CSV is not such a
path, `run` never writes to the input CSV: it is only read. -/
theorem run_preserves_covariates_and_input
    (fs : FS) (env : SlicerEnv) (inputCSV template output : String)
    (tp1s tp2s : List String)
    (hin : fs.inputExists = true)
    (houtE : fs.outputExists = true)
    (houtD : fs.outputIsDir = true)
    (h1 : fs.table.getColumn "Timepoint 1" = some tp1s)
    (h2 : fs.table.getColumn "Timepoint 2" = some tp2s)
    (hok : allRowsOk env output 0 (tp1s.zip tp2s) = true) :
    ∃ effs m ix1 ix2,
      run fs env inputCSV template output = Except.ok effs ∧
      colIndex "Timepoint 1" fs.table.header = some ix1 ∧
      colIndex "Timepoint 2" fs.table.header = some ix2 ∧
      Effect.wroteManifest (pathJoin output "mfsdaInputFiles.csv") m ∈ effs ∧
      m.header = "VTK File" ::
        fs.table.header.filter (fun c => !(c == "Timepoint 1" || c == "Timepoint 2")) ∧
      m.rows = fs.table.rows.map (fun r =>
        outPath output (r.getD ix1 "") (r.getD ix2 "") ::
          ((fs.table.header.zip r).filter
            (fun q => !(q.1 == "Timepoint 1" || q.1 == "Timepoint 2"))).map Prod.snd) ∧
      (∀ e ∈ effs, ∀ q, writesPath e = some q → ∃ s, q = pathJoin output s) ∧
      ((∀ s, inputCSV ≠ pathJoin output s) →
        ∀ e ∈ effs, ¬writesPath e = some inputCSV) := by
  rcases getColumn_eq_some _ _ _ h1 with ⟨ix1, hix1, htp1⟩
  rcases getColumn_eq_some _ _ _ h2 with ⟨ix2, hix2, htp2⟩
  have hpairs : tp1s.zip tp2s =
      fs.table.rows.map (fun r => (r.getD ix1 "", r.getD ix2 "")) := by
    rw [htp1, htp2, List.zip_map']
  refine ⟨_, (fs.table.dropCols ["Timepoint 1", "Timepoint 2"]).insertCol0 "VTK File"
      ((tp1s.zip tp2s).map (fun p => outPath output p.1 p.2)),
    ix1, ix2,
    run_trace_all_ok fs env inputCSV template output tp1s tp2s hin houtE houtD h1 h2 hok,
    hix1, hix2, ?_, ?_, ?_, ?_, ?_⟩
  · simp [List.mem_append]
  · simp only [DataFrame.insertCol0, DataFrame.dropCols]
    rw [dropCols_timepoints_header]
  · simp only [DataFrame.insertCol0, DataFrame.dropCols]
    rw [hpairs, List.map_map, List.zip_map', List.map_map]
    apply List.map_congr_left
    intro r _
    have hf : ((fs.table.header.zip r).filter
          (fun q => !(["Timepoint 1", "Timepoint 2"].contains q.1))) =
        (fs.table.header.zip r).filter
          (fun q => !(q.1 == "Timepoint 1" || q.1 == "Timepoint 2")) := by
      apply List.filter_congr
      intro a _
      rw [contains_timepoints_eq]
    show outPath output (r.getD ix1 "") (r.getD ix2 "") ::
        ((fs.table.header.zip r).filter
          (fun q => !(["Timepoint 1", "Timepoint 2"].contains q.1))).map Prod.snd =
      outPath output (r.getD ix1 "") (r.getD ix2 "") ::
        ((fs.table.header.zip r).filter
          (fun q => !(q.1 == "Timepoint 1" || q.1 == "Timepoint 2"))).map Prod.snd
    rw [hf]
  · exact trace_writes_confined output template (tp1s.zip tp2s) _
  · intro hne e he hww
    rcases trace_writes_confined output template (tp1s.zip tp2s) _ e he inputCSV hww
      with ⟨s, hs⟩
    exact hne s hs

/-- Witness for C9 at a concrete input: the sample manifest reproduces the
`Age` values verbatim and all writes stay inside the output directory. -/
theorem run_preserves_covariates_and_input_witness :
    ∃ effs m ix1 ix2,
      run fsSample envAllOk "/data/in.csv" "/data/template.vtk" "/out" =
        Except.ok effs ∧
      colIndex "Timepoint 1" fsSample.table.header = some ix1 ∧
      colIndex "Timepoint 2" fsSample.table.header = some ix2 ∧
      Effect.wroteManifest (pathJoin "/out" "mfsdaInputFiles.csv") m ∈ effs ∧
      m.header = "VTK File" ::
        fsSample.table.header.filter
          (fun c => !(c == "Timepoint 1" || c == "Timepoint 2")) ∧
      m.rows = fsSample.table.rows.map (fun r =>
        outPath "/out" (r.getD ix1 "") (r.getD ix2 "") ::
          ((fsSample.table.header.zip r).filter
            (fun q => !(q.1 == "Timepoint 1" || q.1 == "Timepoint 2"))).map Prod.snd) ∧
      (∀ e ∈ effs, ∀ q, writesPath e = some q → ∃ s, q = pathJoin "/out" s) ∧
      ((∀ s, "/data/in.csv" ≠ pathJoin "/out" s) →
        ∀ e ∈ effs, ¬writesPath e = some "/data/in.csv") :=
  run_preserves_covariates_and_input fsSample envAllOk "/data/in.csv"
    "/data/template.vtk" "/out" tp1Sample tp2Sample rfl rfl rfl rfl rfl rfl

end DiffStats
